import Mathlib

/-!
Verification of the canvas synchronization and placement scheduling engine
of the `uwu` repository (`place.py`, `src/connect.py`) against its
natural-language specification.

The Python source is shallowly embedded: images become width/height plus a
pixel function, the `PlaceClient` mutable attributes become an explicit
`CacheState` record, the external collaborators (template loading, board
fetch, authentication, placement submission) become explicit parameters
carrying their results, and Python exceptions become `Except` values.
Machine times (seconds since the epoch, possibly fractional after the
millisecond divisions in the source) are modelled as rationals.
-/

/-- An RGB pixel, as in the board arrays of `place.py` (`convert("RGB")`). -/
structure RGB where
  r : Nat
  g : Nat
  b : Nat
deriving DecidableEq

/-- An RGBA pixel, as in the template array `np.array(template)` of `place.py`. -/
structure RGBA where
  r : Nat
  g : Nat
  b : Nat
  a : Nat
deriving DecidableEq

/-- The RGB channels of an RGBA pixel: `self.template[...,:-1]` in `place.py`. -/
def RGBA.rgb (p : RGBA) : RGB := ⟨p.r, p.g, p.b⟩

/-- A rectangular image: `pix i j` is the pixel at row `i`, column `j`,
matching the numpy array layout `arr[i][j]` of shape `(height, width, channels)`. -/
structure Image (Pix : Type) where
  width : Nat
  height : Nat
  pix : Nat → Nat → Pix

/-- Embedding of the queue computation inside `PlaceClient.compute_wrong_pixels`
(place.py lines 145-154): `target_a` is the alpha channel, `target_rgb` the
palette-quantized template (`ColorMapper.closest_color`, abstracted here as the
parameter `quantize`), and the queue collects, in row-major `np.argwhere` order,
every position where the board differs from the quantized template and the
template alpha is 255, paired with the quantized target colour at that position. -/
def wrongPixelsList (quantize : RGB → RGB) (template : Image RGBA)
    (board : Image RGB) : List ((Nat × Nat) × RGB) :=
  (List.range template.height).flatMap fun i =>
    (List.range template.width).filterMap fun j =>
      let tp := template.pix i j
      let c := quantize tp.rgb
      if tp.a = 255 ∧ c ≠ board.pix i j then some ((i, j), c) else none

/-- Squared Euclidean distance between two RGB colours. -/
def sqDist (p q : RGB) : Int :=
  ((p.r : Int) - q.r) ^ 2 + ((p.g : Int) - q.g) ^ 2 + ((p.b : Int) - q.b) ^ 2

/-- Modelled from the spec: `ColorMapper.closest_color` lives in
`src/mappings.py`, which is not among the provided sources.  Per the spec
(section 4.1) it returns the palette entry of minimum Euclidean distance in RGB
space, ties broken by lowest palette identifier (here: earliest list position). -/
def closest_color (palette : List RGB) (c : RGB) : RGB :=
  match palette with
  | [] => c
  | p :: ps => ps.foldl (fun best q => if sqDist q c < sqDist best c then q else best) p

/-- Claim C2: for a Template and CanvasSnapshot of identical dimensions, the
computed DiscrepancyQueue contains position `(i, j)` with colour `c` iff the
template alpha there is 255, the quantized template colour differs from the
board colour there, and `c` is that quantized colour (never the raw RGB).
In particular no entry has a non-opaque template alpha. -/
theorem wrongPixels_mem_iff (quantize : RGB → RGB) (template : Image RGBA)
    (board : Image RGB) (hw : template.width = board.width)
    (hh : template.height = board.height) (i j : Nat) (c : RGB) :
    ((i, j), c) ∈ wrongPixelsList quantize template board ↔
      i < template.height ∧ j < template.width ∧
        (template.pix i j).a = 255 ∧
        quantize (template.pix i j).rgb ≠ board.pix i j ∧
        c = quantize (template.pix i j).rgb := by
  unfold wrongPixelsList
  simp only [List.mem_flatMap, List.mem_filterMap, List.mem_range]
  constructor
  · rintro ⟨a, ha, b, hb, hif⟩
    by_cases hcond : (template.pix a b).a = 255 ∧
        quantize (template.pix a b).rgb ≠ board.pix a b
    · rw [if_pos hcond] at hif
      obtain ⟨hpair, hc⟩ := Prod.mk.injEq .. ▸ Option.some.injEq .. ▸ hif
      obtain ⟨hi, hj⟩ := Prod.mk.injEq .. ▸ hpair
      subst hi; subst hj
      exact ⟨ha, hb, hcond.1, hcond.2, hc.symm⟩
    · rw [if_neg hcond] at hif
      exact absurd hif (Option.noConfusion)
  · rintro ⟨hi, hj, ha, hne, hc⟩
    refine ⟨i, hi, j, hj, ?_⟩
    rw [if_pos ⟨ha, hne⟩, hc]

/-- Concrete 2-by-2 fully opaque template (red, green / blue, white), the
end-to-end scenario of the spec. -/
def wTemplate : Image RGBA :=
  { width := 2, height := 2,
    pix := fun i j =>
      match i, j with
      | 0, 0 => ⟨255, 0, 0, 255⟩
      | 0, 1 => ⟨0, 255, 0, 255⟩
      | 1, 0 => ⟨0, 0, 255, 255⟩
      | _, _ => ⟨255, 255, 255, 255⟩ }

/-- Concrete all-black 2-by-2 canvas snapshot. -/
def wBoard : Image RGB :=
  { width := 2, height := 2, pix := fun _ _ => ⟨0, 0, 0⟩ }

/-- A small palette: black, white, red, green, blue. -/
def wPalette : List RGB :=
  [⟨0, 0, 0⟩, ⟨255, 255, 255⟩, ⟨255, 0, 0⟩, ⟨0, 255, 0⟩, ⟨0, 0, 255⟩]

/-- The quantizer used in concrete instances: nearest palette colour. -/
def wQuant : RGB → RGB := closest_color wPalette

/-- Witness for `wrongPixels_mem_iff` at the concrete 2-by-2 scenario. -/
theorem wrongPixels_mem_iff_witness :
    wTemplate.width = wBoard.width ∧ wTemplate.height = wBoard.height ∧
      (((0, 0), (⟨255, 0, 0⟩ : RGB)) ∈ wrongPixelsList wQuant wTemplate wBoard ↔
        0 < wTemplate.height ∧ 0 < wTemplate.width ∧
          (wTemplate.pix 0 0).a = 255 ∧
          wQuant (wTemplate.pix 0 0).rgb ≠ wBoard.pix 0 0 ∧
          (⟨255, 0, 0⟩ : RGB) = wQuant (wTemplate.pix 0 0).rgb) :=
  ⟨rfl, rfl, wrongPixels_mem_iff wQuant wTemplate wBoard rfl rfl 0 0 ⟨255, 0, 0⟩⟩

/-- The two offsets read from the canvas JSON file
(`self.canvas['offset']['template_api']` and `self.canvas['offset']['visual']`). -/
structure CanvasData where
  templateApi : Int × Int
  visual : Int × Int
deriving DecidableEq

/-- The mutable attributes of `PlaceClient` that the cache protocol
(`update` / `compute_wrong_pixels` / `get_wrong_pixel`) reads and writes. -/
structure CacheState where
  canvas : CanvasData
  coord : Int × Int
  size : Nat × Nat
  template : Image RGBA
  board : Option (Image RGB)
  wrong_pixels : List ((Nat × Nat) × RGB)
  template_outdated : Bool
  board_outdated : Bool

/-- Results of the external collaborators consulted during one `update` call:
`utils.load_template_data` (anchor coordinate and template image, or a falsy
failure), the canvas JSON reload, and the stitched board image returned by
`connect.get_board`. -/
structure UpdateEnv where
  load_template_data : Option ((Int × Int) × Image RGBA)
  canvas_json : CanvasData
  board_image : Image RGB

/-- PIL `Image.crop((left, upper, right, lower))` followed by `convert("RGB")`,
for the box `(coord, coord + size)` used in `PlaceClient.update`: the result
has exactly the box dimensions, with positions outside the source filled black. -/
def cropBoard (src : Image RGB) (coord : Int × Int) (size : Nat × Nat) : Image RGB :=
  { width := size.1, height := size.2,
    pix := fun i j =>
      let x : Int := coord.1 + j
      let y : Int := coord.2 + i
      if 0 ≤ x ∧ x < src.width ∧ 0 ≤ y ∧ y < src.height then
        src.pix y.toNat x.toNat
      else ⟨0, 0, 0⟩ }

/-- The board branch of `PlaceClient.update` (place.py lines 103-114): when the
board is flagged outdated or absent, clear the flag, fetch and crop a fresh
board to the template bounding box, and empty `wrong_pixels`. -/
def boardStep (env : UpdateEnv) (s : CacheState) : CacheState :=
  if s.board_outdated || s.board.isNone then
    { s with board_outdated := false,
             board := some (cropBoard env.board_image s.coord s.size),
             wrong_pixels := [] }
  else s

/-- Embedding of `PlaceClient.update` (place.py lines 86-114).  The template
branch clears `template_outdated` first and, when `load_template_data` is
falsy, returns at once ("skip updating"); on success it reloads the canvas
JSON, recomputes the anchor `coord`, and replaces `size` and `template`.
The board branch then runs as `boardStep`. -/
def update (env : UpdateEnv) (s : CacheState) : CacheState :=
  if s.template_outdated then
    match env.load_template_data with
    | none => { s with template_outdated := false }
    | some (c, t) =>
        boardStep env
          { s with
            template_outdated := false,
            canvas := env.canvas_json,
            coord := (c.1 + env.canvas_json.templateApi.1,
                      c.2 + env.canvas_json.templateApi.2),
            size := (t.width, t.height),
            template := t }
  else boardStep env s

/-- Claim C10: when the template is flagged outdated and the template reload
fails, `update` returns immediately with only the flag cleared: the board
refresh is skipped even if `board_outdated` is set or no board exists yet. -/
theorem update_template_load_failure (env : UpdateEnv) (s : CacheState)
    (ht : s.template_outdated = true) (hl : env.load_template_data = none) :
    update env s = { s with template_outdated := false } := by
  simp [update, ht, hl]

/-- Witness for `update_template_load_failure`: a state with the board also
flagged outdated and no board present, where the whole call still only clears
the template flag. -/
def cdata0 : CanvasData := { templateApi := (0, 0), visual := (0, 0) }

def sW10 : CacheState :=
  { canvas := cdata0, coord := (0, 0), size := (2, 2), template := wTemplate,
    board := none, wrong_pixels := [], template_outdated := true,
    board_outdated := true }

def envW10 : UpdateEnv :=
  { load_template_data := none, canvas_json := cdata0, board_image := wBoard }

theorem update_template_load_failure_witness :
    sW10.template_outdated = true ∧ envW10.load_template_data = none ∧
      update envW10 sW10 = { sW10 with template_outdated := false } :=
  ⟨rfl, rfl, update_template_load_failure envW10 sW10 rfl rfl⟩

/-- Amended claim C3: after any update call that performs a board refresh
(the board was flagged outdated or absent, and a flagged template reload did
not fail and abort the call), the DiscrepancyQueue is empty.  A template
refresh alone does not clear the queue (see the counterexample). -/
theorem update_board_refresh_clears_queue (env : UpdateEnv) (s : CacheState)
    (htm : s.template_outdated = true → env.load_template_data.isSome)
    (hb : s.board_outdated = true ∨ s.board = none) :
    (update env s).wrong_pixels = [] := by
  have hcond : ∀ s' : CacheState, s'.board_outdated = true ∨ s'.board = none →
      (boardStep env s').wrong_pixels = [] := by
    intro s' h
    unfold boardStep
    rcases h with h | h
    · rw [h]; simp
    · rw [h]; simp
  unfold update
  cases hto : s.template_outdated with
  | false => simp only [Bool.false_eq_true, if_false]; exact hcond s hb
  | true =>
    simp only [if_true]
    cases hl : env.load_template_data with
    | none => exact absurd (hl ▸ htm hto) (by simp)
    | some ct =>
      obtain ⟨c, t⟩ := ct
      exact hcond _ hb

/-- Witness for `update_board_refresh_clears_queue`: a populated queue with the
board flagged outdated is emptied by the update call. -/
def sW3 : CacheState :=
  { canvas := cdata0, coord := (0, 0), size := (2, 2), template := wTemplate,
    board := some wBoard, wrong_pixels := [((0, 0), ⟨255, 0, 0⟩)],
    template_outdated := false, board_outdated := true }

def envW3 : UpdateEnv :=
  { load_template_data := some ((0, 0), wTemplate), canvas_json := cdata0,
    board_image := wBoard }

theorem update_board_refresh_clears_queue_witness :
    (sW3.board_outdated = true ∨ sW3.board = none) ∧
      (update envW3 sW3).wrong_pixels = [] :=
  ⟨Or.inl rfl,
   update_board_refresh_clears_queue envW3 sW3 (fun h => absurd h (by decide))
     (Or.inl rfl)⟩

/-- A 3-by-3 fully opaque white template, for refreshes that change the size. -/
def wTemplate3 : Image RGBA :=
  { width := 3, height := 3, pix := fun _ _ => ⟨255, 255, 255, 255⟩ }

/-- A 5-by-5 all-black board snapshot. -/
def wBoard5 : Image RGB :=
  { width := 5, height := 5, pix := fun _ _ => ⟨0, 0, 0⟩ }

/-- State for the C3 counterexample: a populated queue, the template flagged
outdated, the board present and not flagged. -/
def sC3 : CacheState :=
  { canvas := cdata0, coord := (0, 0), size := (2, 2), template := wTemplate,
    board := some wBoard, wrong_pixels := [((0, 0), ⟨255, 0, 0⟩)],
    template_outdated := true, board_outdated := false }

def envC3 : UpdateEnv :=
  { load_template_data := some ((0, 0), wTemplate), canvas_json := cdata0,
    board_image := wBoard }

/-- Counterexample to claim C3 as stated: a successful template refresh (the
template was flagged outdated and the reload succeeded) leaves the previously
computed, non-empty DiscrepancyQueue in place — the refresh does not empty it. -/
theorem update_template_refresh_keeps_queue :
    sC3.template_outdated = true ∧ envC3.load_template_data.isSome = true ∧
      (update envC3 sC3).wrong_pixels = [((0, 0), ⟨255, 0, 0⟩)] ∧
      (update envC3 sC3).wrong_pixels ≠ [] :=
  ⟨rfl, rfl, rfl, by decide⟩

/-- Amended claim C6: after any update call that performs a board refresh, the
CanvasSnapshot has exactly the Template's dimensions (using the invariant that
`size` mirrors the template dimensions, established at construction).  A
template refresh alone can leave the two misaligned (see the counterexample). -/
theorem update_board_refresh_aligned (env : UpdateEnv) (s : CacheState)
    (hsz : s.size = (s.template.width, s.template.height))
    (htm : s.template_outdated = true → env.load_template_data.isSome)
    (hb : s.board_outdated = true ∨ s.board = none) :
    ∃ bd, (update env s).board = some bd ∧
      bd.width = (update env s).template.width ∧
      bd.height = (update env s).template.height := by
  have hcond : ∀ s' : CacheState, s'.board_outdated = true ∨ s'.board = none →
      s'.size = (s'.template.width, s'.template.height) →
      ∃ bd, (boardStep env s').board = some bd ∧
        bd.width = (boardStep env s').template.width ∧
        bd.height = (boardStep env s').template.height := by
    intro s' h hsz'
    refine ⟨cropBoard env.board_image s'.coord s'.size, ?_⟩
    unfold boardStep
    rcases h with h | h
    · rw [h]
      simp [cropBoard, hsz']
    · rw [h]
      simp [cropBoard, hsz']
  unfold update
  cases hto : s.template_outdated with
  | false => simp only [Bool.false_eq_true, if_false]; exact hcond s hb hsz
  | true =>
    simp only [if_true]
    cases hl : env.load_template_data with
    | none => exact absurd (hl ▸ htm hto) (by simp)
    | some ct =>
      obtain ⟨c, t⟩ := ct
      exact hcond _ hb rfl

/-- Witness for `update_board_refresh_aligned` at a concrete state. -/
theorem update_board_refresh_aligned_witness :
    sW3.size = (sW3.template.width, sW3.template.height) ∧
      ∃ bd, (update envW3 sW3).board = some bd ∧
        bd.width = (update envW3 sW3).template.width ∧
        bd.height = (update envW3 sW3).template.height :=
  ⟨rfl,
   update_board_refresh_aligned envW3 sW3 rfl (fun h => absurd h (by decide))
     (Or.inl rfl)⟩

/-- State for the C6 counterexample: template flagged outdated, a 5-by-5 board
present and not flagged, and a reload that yields a 3-by-3 template. -/
def sC6 : CacheState :=
  { canvas := cdata0, coord := (0, 0), size := (2, 2), template := wTemplate,
    board := some wBoard5, wrong_pixels := [], template_outdated := true,
    board_outdated := false }

def envC6 : UpdateEnv :=
  { load_template_data := some ((0, 0), wTemplate3), canvas_json := cdata0,
    board_image := wBoard5 }

/-- Counterexample to claim C6 as stated: a successful template refresh that
changes the template to 3-by-3 leaves the old 5-by-5 CanvasSnapshot in place,
so after this refresh the snapshot and the template dimensions differ. -/
theorem update_template_refresh_misaligned :
    sC6.template_outdated = true ∧ envC6.load_template_data.isSome = true ∧
      ((update envC6 sC6).template.width, (update envC6 sC6).template.height)
        = (3, 3) ∧
      ((update envC6 sC6).board.map fun bd => (bd.width, bd.height))
        = some (5, 5) ∧
      ¬ ((update envC6 sC6).board.map fun bd => (bd.width, bd.height))
          = some ((update envC6 sC6).template.width,
                  (update envC6 sC6).template.height) :=
  ⟨rfl, rfl, rfl, rfl, by decide⟩

/-- Embedding of `PlaceClient.compute_wrong_pixels` (place.py lines 140-154):
if the queue is already non-empty the method returns at once, touching
nothing; otherwise it recomputes the queue from the template and the board.
Comparing against a `None` board would raise in Python, so that case is an
`Except.error`. -/
def compute_wrong_pixels (quantize : RGB → RGB) (s : CacheState) :
    Except String CacheState :=
  match s.wrong_pixels with
  | _ :: _ => Except.ok s
  | [] =>
    match s.board with
    | none => Except.error "TypeError: comparison with a None board"
    | some bd =>
        Except.ok { s with wrong_pixels := wrongPixelsList quantize s.template bd }

/-- Claim C8: recomputation is lazy and idempotent — whenever the queue is
already non-empty, `compute_wrong_pixels` returns the state completely
unchanged (no recomputation work is done). -/
theorem compute_wrong_pixels_noop (quantize : RGB → RGB) (s : CacheState)
    (h : s.wrong_pixels ≠ []) :
    compute_wrong_pixels quantize s = Except.ok s := by
  unfold compute_wrong_pixels
  cases hw : s.wrong_pixels with
  | nil => exact absurd hw h
  | cons x xs => rfl

/-- Witness for `compute_wrong_pixels_noop` on a concrete populated state. -/
theorem compute_wrong_pixels_noop_witness :
    sC3.wrong_pixels ≠ [] ∧
      compute_wrong_pixels wQuant sC3 = Except.ok sC3 :=
  ⟨by decide, compute_wrong_pixels_noop wQuant sC3 (by decide)⟩

/-- The attributes assigned on `PlaceClient` in `__init__` and its methods:
a Python attribute access outside this list raises `AttributeError`. -/
def placeClientAttrs : List String :=
  ["logger", "json_data", "template_urls", "priority_url", "canvas_path",
   "canvas", "image_path", "delay_between_launches", "unverified_rate_limit",
   "rgb_colors_array", "access_tokens", "access_token_expires_at_timestamp",
   "update_lock", "stop_event", "board_outdated", "template_outdated",
   "coord", "size", "template", "board", "wrong_pixels"]

/-- The AttributeError raised by `self.convas` at place.py line 130. -/
def convasError : String :=
  "AttributeError: PlaceClient object has no attribute convas"

/-- Embedding of the locked body of `PlaceClient.get_wrong_pixel` (place.py
lines 123-132): recompute the queue if empty, then, if the queue is non-empty,
pop the last entry (Python `list.pop()`); before returning, the success log
statement evaluates `self.convas['offset']['visual']`, and `convas` is not an
attribute of `PlaceClient` (the other uses spell it `canvas`), so that access
raises.  `Except.ok none` models the all-pixels-correct path that re-polls. -/
def get_wrong_pixel_locked (quantize : RGB → RGB) (s : CacheState) :
    Except String (Option (CacheState × ((Nat × Nat) × RGB))) :=
  match compute_wrong_pixels quantize s with
  | Except.error e => Except.error e
  | Except.ok s1 =>
    match s1.wrong_pixels with
    | [] => Except.ok none
    | x :: xs =>
      let entry := (x :: xs).getLastD x
      if "convas" ∈ placeClientAttrs then
        Except.ok (some ({ s1 with wrong_pixels := (x :: xs).dropLast }, entry))
      else
        Except.error convasError

/-- Claim C4 fails on the code: whenever the queue is non-empty after
recomputation, the pop step does not return the popped pair — it raises an
AttributeError, because the success log reads `self.convas` (a typo for
`self.canvas`) before `get_wrong_pixel` can return. -/
theorem get_wrong_pixel_attribute_error (quantize : RGB → RGB)
    (s s1 : CacheState) (hc : compute_wrong_pixels quantize s = Except.ok s1)
    (hne : s1.wrong_pixels ≠ []) :
    get_wrong_pixel_locked quantize s = Except.error convasError := by
  unfold get_wrong_pixel_locked
  rw [hc]
  cases hl : s1.wrong_pixels with
  | nil => exact absurd hl hne
  | cons x xs =>
    have hmem : ¬ "convas" ∈ placeClientAttrs := by decide
    simp [hl, hmem]

/-- The state just before the failing pop in the concrete 2-by-2 scenario. -/
def sW4 : CacheState :=
  { canvas := cdata0, coord := (0, 0), size := (2, 2), template := wTemplate,
    board := some wBoard, wrong_pixels := [], template_outdated := false,
    board_outdated := false }

def sW4pop : CacheState :=
  { sW4 with wrong_pixels := wrongPixelsList wQuant wTemplate wBoard }

/-- Witness for `get_wrong_pixel_attribute_error`: on the concrete 2-by-2
scenario the recomputed queue is non-empty and the pop step raises. -/
theorem get_wrong_pixel_attribute_error_witness :
    compute_wrong_pixels wQuant sW4 = Except.ok sW4pop ∧
      sW4pop.wrong_pixels ≠ [] ∧
      get_wrong_pixel_locked wQuant sW4 = Except.error convasError :=
  ⟨rfl, by decide,
   get_wrong_pixel_attribute_error wQuant sW4 sW4pop rfl (by decide)⟩

/-- A parsed placement response, as examined by
`PlaceClient.set_pixel_and_check_ratelimit` (place.py lines 176-206):
a success payload (`data` non-null) carrying `nextAvailablePixelTimestamp`
in milliseconds, an error without an `extensions` field, or an error whose
`extensions` carry `nextAvailablePixelTs` in milliseconds. -/
inductive PlaceResponse
  | success (nextAvailableMs : Nat)
  | errorNoExt (message : String)
  | rateLimited (nextAvailableMs : Nat)
deriving DecidableEq

/-- The value returned by `set_pixel_and_check_ratelimit`: the millisecond
timestamp divided by 1000 on the success and rate-limited branches, and the
constant 60 on the extension-less error branch ("Wait 1 minute on any other
error"). -/
def returnedNextTime : PlaceResponse → ℚ
  | PlaceResponse.success ts => (ts : ℚ) / 1000
  | PlaceResponse.errorNoExt _ => 60
  | PlaceResponse.rateLimited ts => (ts : ℚ) / 1000

/-- The argument bundle handed to `connect.set_pixel`: the GraphQL payload
fields `coordinate.x`, `coordinate.y`, `colorIndex` and `canvasIndex`
(connect.py lines 26-30). -/
structure PlacementRequest where
  x : Nat
  y : Nat
  color_index : Nat
  canvas_index : Nat
deriving DecidableEq

/-- Embedding of `PlaceClient.set_pixel_and_check_ratelimit` (place.py lines
159-206): from the absolute canvas coordinate it derives `subcoord = coord //
1000` and `subcanvas = subcoord[0] + 3 * subcoord[1]`, calls `connect.set_pixel`
with `coord % 1000`, the colour index and `subcanvas`, and returns the
next-available time interpreted from the response.  Absolute canvas
coordinates are nonnegative, so numpy floor division and remainder coincide
with Nat division and remainder. -/
def set_pixel_and_check_ratelimit (coord : Nat × Nat) (color_index : Nat)
    (resp : PlaceResponse) : PlacementRequest × ℚ :=
  let subcoord := (coord.1 / 1000, coord.2 / 1000)
  let subcanvas := subcoord.1 + 3 * subcoord.2
  ({ x := coord.1 % 1000, y := coord.2 % 1000, color_index := color_index,
     canvas_index := subcanvas }, returnedNextTime resp)

/-- Claim C7: the placement call receives the coordinate reduced modulo the
region size 1000 in each axis, the region index `x / 1000 + 3 * (y / 1000)`,
and the unchanged target colour identifier. -/
theorem set_pixel_request_translation (coord : Nat × Nat) (ci : Nat)
    (resp : PlaceResponse) :
    (set_pixel_and_check_ratelimit coord ci resp).1.x = coord.1 % 1000 ∧
      (set_pixel_and_check_ratelimit coord ci resp).1.y = coord.2 % 1000 ∧
      (set_pixel_and_check_ratelimit coord ci resp).1.canvas_index
        = coord.1 / 1000 + 3 * (coord.2 / 1000) ∧
      (set_pixel_and_check_ratelimit coord ci resp).1.color_index = ci :=
  ⟨rfl, rfl, rfl, rfl⟩

/-- The wait computed at place.py line 239: `time_to_wait =
next_placement_time - current_time`, with `next_placement_time` the return
value of `set_pixel_and_check_ratelimit`. -/
def task_time_to_wait (coord : Nat × Nat) (ci : Nat) (resp : PlaceResponse)
    (current_time : ℚ) : ℚ :=
  (set_pixel_and_check_ratelimit coord ci resp).2 - current_time

/-- Claim C1 fails on the code at this input: for an error response without a
structured rate-limit extension at epoch time 1690000000, the computed wait is
`60 - 1690000000` — a huge negative number, not the 60-second backoff the
claim (and the source comment "Wait 1 minute on any other error") intends,
because the error branch returns the constant 60 where an absolute timestamp
is expected. -/
theorem error_backoff_is_absolute_bug :
    task_time_to_wait (0, 0) 0 (PlaceResponse.errorNoExt "err") 1690000000
        = 60 - 1690000000 ∧
      task_time_to_wait (0, 0) 0 (PlaceResponse.errorNoExt "err") 1690000000
        < 0 ∧
      ¬ task_time_to_wait (0, 0) 0 (PlaceResponse.errorNoExt "err") 1690000000
          = 60 := by
  refine ⟨rfl, ?_, ?_⟩ <;>
    norm_num [task_time_to_wait, set_pixel_and_check_ratelimit, returnedNextTime]

/-- The ban threshold of place.py line 241. -/
def banThreshold : ℚ := 10000

/-- What a worker cycle does after computing `time_to_wait` (place.py lines
241-246): above the threshold the loop returns (the thread ends); otherwise
the loop waits `time_to_wait` and continues. -/
inductive CycleOutcome
  | terminated : CycleOutcome
  | wait : ℚ → CycleOutcome
deriving DecidableEq

/-- Embedding of the cycle-end decision of `PlaceClient.task`. -/
def task_cycle_end (time_to_wait : ℚ) : CycleOutcome :=
  if time_to_wait > banThreshold then CycleOutcome.terminated
  else CycleOutcome.wait time_to_wait

/-- Liveness of the per-identity worker threads after identity `u` finishes a
cycle: a `return` from `task` ends only `u`'s thread (`threading.Thread`,
place.py lines 251-257), leaving every other thread's state untouched. -/
def threads_after_cycle_end (alive : String → Bool) (u : String)
    (time_to_wait : ℚ) : String → Bool :=
  fun v =>
    if v = u then
      match task_cycle_end time_to_wait with
      | CycleOutcome.terminated => false
      | CycleOutcome.wait _ => alive v
    else alive v

/-- Claim C9: a computed wait above the 10000-second ban threshold makes that
identity's loop terminate (not wait), and every other identity's thread state
is unchanged. -/
theorem ban_terminates_only_identity (alive : String → Bool) (u v : String)
    (time_to_wait : ℚ) (h : time_to_wait > banThreshold) (hv : v ≠ u) :
    task_cycle_end time_to_wait = CycleOutcome.terminated ∧
      threads_after_cycle_end alive u time_to_wait u = false ∧
      threads_after_cycle_end alive u time_to_wait v = alive v := by
  refine ⟨?_, ?_, ?_⟩ <;>
    simp [task_cycle_end, threads_after_cycle_end, h, hv]

/-- Witness for `ban_terminates_only_identity` with a 20000-second wait. -/
theorem ban_terminates_only_identity_witness :
    (20000 : ℚ) > banThreshold ∧ "bob" ≠ "alice" ∧
      (task_cycle_end 20000 = CycleOutcome.terminated ∧
        threads_after_cycle_end (fun _ => true) "alice" 20000 "alice" = false ∧
        threads_after_cycle_end (fun _ => true) "alice" 20000 "bob" = true) :=
  ⟨by decide, by decide,
   ban_terminates_only_identity (fun _ => true) "alice" "bob" 20000
     (by decide) (by decide)⟩

/-- The outcome of one `connect.login` attempt (connect.py lines 304-341):
`httpFail` is a non-OK login status (the function logs and returns with the
token maps untouched); `sessionError` is a session payload carrying an
"error" field — expected fields missing — on which the code calls `exit(1)`,
and the resulting `SystemExit`, uncaught inside a worker thread, ends only
that thread; `fresh` is a successful login storing the access token and the
expiry `current_time + expiresIn`. -/
inductive AuthResult
  | httpFail
  | sessionError
  | fresh (accessToken : String) (expiresIn : ℚ)

/-- The token-refresh guard of `PlaceClient.task` (place.py lines 219-224):
refresh when no token is stored, no expiry is stored, or the stored expiry is
truthy (non-zero) and `current_time >= expiry`. -/
def needs_auth_refresh (tok : Option String) (ex : Option ℚ) (now : ℚ) : Bool :=
  tok.isNone || ex.isNone ||
    (match ex with
     | none => false
     | some e => decide (e ≠ 0) && decide (e ≤ now))

/-- The identity's token entry, expiry entry, and thread liveness after the
auth-check phase of one `task` cycle. -/
structure AuthPhase where
  tok : Option String
  ex : Option ℚ
  alive : Bool

/-- Embedding of the auth-check phase of `PlaceClient.task` together with
`connect.login`: when a refresh is needed, an httpFail login returns with
maps untouched and the loop carries on; a sessionError login exits that
thread; a fresh login stores the new token and expiry. -/
def auth_phase (tok : Option String) (ex : Option ℚ) (now : ℚ)
    (res : AuthResult) : AuthPhase :=
  if needs_auth_refresh tok ex now then
    match res with
    | AuthResult.httpFail => ⟨tok, ex, true⟩
    | AuthResult.sessionError => ⟨tok, ex, false⟩
    | AuthResult.fresh t dt => ⟨some t, some (now + dt), true⟩
  else ⟨tok, ex, true⟩

/-- Liveness of the worker threads after identity `u` goes through the
auth-check phase: only `u`'s entry can change. -/
def threads_after_auth (alive : String → Bool) (toks : String → Option String)
    (exps : String → Option ℚ) (u : String) (now : ℚ) (res : AuthResult) :
    String → Bool :=
  fun v =>
    if v = u then alive v && (auth_phase (toks u) (exps u) now res).alive
    else alive v

/-- Counterexample to claim C5 as stated: an authentication failure does not
always terminate the identity's loop.  With an expired token still stored
(expiry 100, now 200) a refresh is triggered, the login fails with a non-OK
HTTP status, and the loop keeps running with the stale token. -/
theorem auth_http_failure_continues :
    needs_auth_refresh (some "oldtoken") (some 100) 200 = true ∧
      (auth_phase (some "oldtoken") (some 100) 200 AuthResult.httpFail).alive
        = true ∧
      (auth_phase (some "oldtoken") (some 100) 200 AuthResult.httpFail).tok
        = some "oldtoken" := by
  refine ⟨by decide, ?_, ?_⟩ <;> rfl

/-- Amended claim C5: an authentication response missing expected fields (the
session payload carries an error) terminates only the affected identity's
thread — its liveness becomes false and every other identity's thread state
is unchanged.  An HTTP-status authentication failure instead leaves the loop
running (with the previously stored token, if any). -/
theorem auth_session_error_kills_only_identity (alive : String → Bool)
    (toks : String → Option String) (exps : String → Option ℚ) (u v : String)
    (now : ℚ) (hneed : needs_auth_refresh (toks u) (exps u) now = true)
    (hv : v ≠ u) :
    threads_after_auth alive toks exps u now AuthResult.sessionError u = false ∧
      threads_after_auth alive toks exps u now AuthResult.sessionError v
        = alive v := by
  constructor
  · simp [threads_after_auth, auth_phase, hneed]
  · simp [threads_after_auth, hv]

/-- Witness for `auth_session_error_kills_only_identity`: an identity with no
stored token whose login reports missing fields dies, while another identity
stays alive. -/
theorem auth_session_error_kills_only_identity_witness :
    needs_auth_refresh none none 0 = true ∧ "bob" ≠ "alice" ∧
      (threads_after_auth (fun _ => true) (fun _ => none) (fun _ => none)
          "alice" 0 AuthResult.sessionError "alice" = false ∧
        threads_after_auth (fun _ => true) (fun _ => none) (fun _ => none)
          "alice" 0 AuthResult.sessionError "bob" = true) :=
  ⟨rfl, by decide,
   auth_session_error_kills_only_identity (fun _ => true) (fun _ => none)
     (fun _ => none) "alice" "bob" 0 rfl (by decide)⟩
